import Mathlib

/- Shallow embedding of the kamens-tests ESP32 firmware and proofs about it:
   the Wi-Fi station manager (station/components/WiFi/WiFi.c), the BLE
   peripheral role (components/BLE/BLE.c), the BLE central role
   (station/components/BLE/BLE.c), the HTTP server start guard
   (station/components/WEB_Server/WEB_Server.c) and the NVS string storage
   (components/Storage_Manager/Storage_Manager.c). -/

/- ==================== Wi-Fi station manager (WiFi.c) ==================== -/

/- Events delivered to wifi_event_handler: WIFI_EVENT_STA_START,
   WIFI_EVENT_STA_DISCONNECTED, IP_EVENT_STA_GOT_IP. -/
inductive WifiEvent : Type
  | staStart
  | staDisconnected
  | staGotIp
  deriving DecidableEq, Repr

/- Observable actions the handler performs: esp_wifi_connect calls,
   xEventGroupSetBits on WIFI_FAIL_BIT / WIFI_CONNECTED_BIT,
   led_control_set and web_server_start calls. -/
inductive WifiAction : Type
  | connectAttempt
  | signalFail
  | signalConnected
  | ledSet (b : Bool)
  | serverStart
  deriving DecidableEq, Repr

/- The handler state: s_retry_num and the two event-group bits. -/
structure WifiState : Type where
  retryNum : Nat
  connectedBit : Bool
  failBit : Bool
  deriving DecidableEq, Repr

/- Initial state: s_retry_num = 0, no bit set. -/
def initWifi : WifiState := ⟨0, false, false⟩

/- wifi_event_handler, WiFi.c lines 41-72.  max is CONFIG_ESP_MAXIMUM_RETRY.
   STA_START: call esp_wifi_connect.
   STA_DISCONNECTED: if s_retry_num < max, esp_wifi_connect and increment;
   otherwise set WIFI_FAIL_BIT.
   GOT_IP: s_retry_num = 0, led_control_set(1), web_server_start,
   set WIFI_CONNECTED_BIT. -/
def wifi_event_handler (max : Nat) (s : WifiState) (e : WifiEvent) :
    WifiState × List WifiAction :=
  match e with
  | WifiEvent.staStart => (s, [WifiAction.connectAttempt])
  | WifiEvent.staDisconnected =>
      if s.retryNum < max then
        ({ s with retryNum := s.retryNum + 1 }, [WifiAction.connectAttempt])
      else
        ({ s with failBit := true }, [WifiAction.signalFail])
  | WifiEvent.staGotIp =>
      ({ s with retryNum := 0, connectedBit := true },
       [WifiAction.ledSet true, WifiAction.serverStart, WifiAction.signalConnected])

/- Process a list of events in order, collecting all actions. -/
def wifiRun (max : Nat) : WifiState → List WifiEvent → WifiState × List WifiAction
  | s, [] => (s, [])
  | s, e :: es =>
      let p := wifi_event_handler max s e
      let q := wifiRun max p.1 es
      (q.1, p.2 ++ q.2)

def isConnectAttempt : WifiAction → Bool
  | WifiAction.connectAttempt => true
  | _ => false

def isSignalFail : WifiAction → Bool
  | WifiAction.signalFail => true
  | _ => false

def isLedOn : WifiAction → Bool
  | WifiAction.ledSet b => b
  | _ => false

def isServerStart : WifiAction → Bool
  | WifiAction.serverStart => true
  | _ => false

def countConnects (l : List WifiAction) : Nat := l.countP isConnectAttempt

def countFails (l : List WifiAction) : Nat := l.countP isSignalFail

def countLedOn (l : List WifiAction) : Nat := l.countP isLedOn

def countServerStart (l : List WifiAction) : Nat := l.countP isServerStart

/- ==================== Wi-Fi helper lemmas ==================== -/

theorem wifiRun_append (max : Nat) (s : WifiState) (l1 l2 : List WifiEvent) :
    wifiRun max s (l1 ++ l2) =
      ((wifiRun max (wifiRun max s l1).1 l2).1,
       (wifiRun max s l1).2 ++ (wifiRun max (wifiRun max s l1).1 l2).2) := by
  induction l1 generalizing s with
  | nil => simp [wifiRun]
  | cons e es ih => simp [wifiRun, ih, List.append_assoc]

theorem wifiRun_disc_le (max k n : Nat) (b1 b2 : Bool) (h : k + n ≤ max) :
    wifiRun max ⟨k, b1, b2⟩ (List.replicate n WifiEvent.staDisconnected) =
      (⟨k + n, b1, b2⟩, List.replicate n WifiAction.connectAttempt) := by
  induction n generalizing k with
  | zero => simp [wifiRun]
  | succ n ih =>
      have hk : k < max := by omega
      have h2 : (k + 1) + n ≤ max := by omega
      simp only [List.replicate_succ, wifiRun, wifi_event_handler, hk, if_pos]
      rw [ih (k + 1) h2]
      have h3 : k + 1 + n = k + (n + 1) := by omega
      simp [h3, List.replicate_succ]

theorem wifiRun_disc_ge (max k m : Nat) (b1 b2 : Bool) (h : max ≤ k) :
    wifiRun max ⟨k, b1, b2⟩ (List.replicate m WifiEvent.staDisconnected) =
      (⟨k, b1, if m = 0 then b2 else true⟩,
       List.replicate m WifiAction.signalFail) := by
  induction m generalizing b2 with
  | zero => simp [wifiRun]
  | succ m ih =>
      have hk : ¬ k < max := by omega
      simp only [List.replicate_succ, wifiRun, wifi_event_handler, hk, if_neg,
        if_false]
      rw [ih true]
      simp [List.replicate_succ]

theorem countP_replicate (p : WifiAction → Bool) (a : WifiAction) (n : Nat) :
    List.countP p (List.replicate n a) = if p a then n else 0 := by
  induction n with
  | zero => simp
  | succ n ih =>
      rcases hpa : p a <;> simp [List.replicate_succ, List.countP_cons, ih, hpa]

theorem wifiRun_retry_le (max : Nat) (s : WifiState) (es : List WifiEvent)
    (h : s.retryNum ≤ max) : (wifiRun max s es).1.retryNum ≤ max := by
  induction es generalizing s with
  | nil => simpa [wifiRun]
  | cons e es ih =>
      simp only [wifiRun]
      apply ih
      cases e with
      | staStart => simpa [wifi_event_handler]
      | staDisconnected =>
          by_cases hk : s.retryNum < max <;>
            simp [wifi_event_handler, hk] <;> omega
      | staGotIp => simp [wifi_event_handler]

/- ==================== Station supervisor (wifi_manager_start) ==================== -/

/- The two mutually exclusive terminal signals wifi_manager_start can observe. -/
inductive WifiOutcome : Type
  | connected
  | fail
  deriving DecidableEq, Repr

/- wifi_manager_start, WiFi.c lines 74-137, abstracted over the event trace:
   the call blocks in xEventGroupWaitBits until the handler sets
   WIFI_CONNECTED_BIT or WIFI_FAIL_BIT.  The model processes the trace in
   order and returns at the first event whose processing leaves a bit set
   (checking the connected bit first, as the C code does), together with
   every action the handler performed up to and including that event.
   none models the call still blocked: no terminal signal in the trace. -/
def wifi_manager_start (max : Nat) :
    WifiState → List WifiEvent → Option (WifiOutcome × List WifiAction)
  | _, [] => none
  | s, e :: es =>
      let p := wifi_event_handler max s e
      if p.1.connectedBit then some (WifiOutcome.connected, p.2)
      else if p.1.failBit then some (WifiOutcome.fail, p.2)
      else
        match wifi_manager_start max p.1 es with
        | none => none
        | some (o, acts) => some (o, p.2 ++ acts)

theorem wifi_manager_start_counts (max : Nat) (es : List WifiEvent) :
    ∀ (s : WifiState) (o : WifiOutcome) (acts : List WifiAction),
      s.connectedBit = false → s.failBit = false →
      wifi_manager_start max s es = some (o, acts) →
      ((o = WifiOutcome.connected → countLedOn acts = 1 ∧ countServerStart acts = 1) ∧
       (o = WifiOutcome.fail → countLedOn acts = 0 ∧ countServerStart acts = 0)) := by
  induction es with
  | nil =>
      intro s o acts hc hf h
      simp [wifi_manager_start] at h
  | cons e es ih =>
      intro s o acts hc hf h
      cases e with
      | staStart =>
          simp only [wifi_manager_start, wifi_event_handler, hc, hf,
            Bool.false_eq_true, if_false] at h
          cases hrec : wifi_manager_start max s es with
          | none => rw [hrec] at h; simp at h
          | some pr =>
              obtain ⟨o', acts'⟩ := pr
              rw [hrec] at h
              simp only [Option.some.injEq, Prod.mk.injEq] at h
              obtain ⟨h1, h2⟩ := h
              subst h1
              subst h2
              have hih := ih s o' acts' hc hf hrec
              constructor
              · intro ho
                have := hih.1 ho
                simp [countLedOn, countServerStart, List.countP_cons, isLedOn,
                  isServerStart] at this ⊢
                exact this
              · intro ho
                have := hih.2 ho
                simp [countLedOn, countServerStart, List.countP_cons, isLedOn,
                  isServerStart] at this ⊢
                exact this
      | staDisconnected =>
          by_cases hk : s.retryNum < max
          · simp only [wifi_manager_start, wifi_event_handler, hk, if_true, hc, hf,
              Bool.false_eq_true, if_false] at h
            cases hrec : wifi_manager_start max ⟨s.retryNum + 1, false, false⟩ es with
            | none => rw [hrec] at h; simp at h
            | some pr =>
                obtain ⟨o', acts'⟩ := pr
                rw [hrec] at h
                simp only [Option.some.injEq, Prod.mk.injEq] at h
                obtain ⟨h1, h2⟩ := h
                subst h1
                subst h2
                have hih := ih ⟨s.retryNum + 1, false, false⟩ o' acts' rfl rfl hrec
                constructor
                · intro ho
                  have := hih.1 ho
                  simp [countLedOn, countServerStart, List.countP_cons, isLedOn,
                    isServerStart] at this ⊢
                  exact this
                · intro ho
                  have := hih.2 ho
                  simp [countLedOn, countServerStart, List.countP_cons, isLedOn,
                    isServerStart] at this ⊢
                  exact this
          · simp only [wifi_manager_start, wifi_event_handler, hk, if_false, hc,
              Bool.false_eq_true, if_true, Option.some.injEq, Prod.mk.injEq] at h
            obtain ⟨h1, h2⟩ := h
            subst h1
            subst h2
            constructor
            · intro ho
              exact absurd ho (by simp)
            · intro ho
              simp [countLedOn, countServerStart, List.countP_cons, List.countP_nil,
                isLedOn, isServerStart]
      | staGotIp =>
          simp only [wifi_manager_start, wifi_event_handler, if_true,
            Option.some.injEq, Prod.mk.injEq] at h
          obtain ⟨h1, h2⟩ := h
          subst h1
          subst h2
          constructor
          · intro ho
            simp [countLedOn, countServerStart, List.countP_cons, List.countP_nil,
              isLedOn, isServerStart]
          · intro ho
            exact absurd ho (by simp)

/- ==================== Wi-Fi claim theorems ==================== -/

/-- C1: for the Wi-Fi station role starting from a retry counter of 0, after
exactly N consecutive disconnect events with no intervening success, for every
N <= max the counter equals N, a reconnect (esp_wifi_connect) action has been
reissued for each of those N events, and no Fail signal has fired; on the
(max+1)-th consecutive disconnect, exactly one Fail signal fires and no
further reconnect action is reissued. -/
theorem C1_wifi_bounded_retry (max N : Nat) (h : N ≤ max) :
    (wifiRun max initWifi (List.replicate N WifiEvent.staDisconnected)).1.retryNum = N ∧
    countConnects (wifiRun max initWifi (List.replicate N WifiEvent.staDisconnected)).2 = N ∧
    countFails (wifiRun max initWifi (List.replicate N WifiEvent.staDisconnected)).2 = 0 ∧
    countFails (wifiRun max initWifi (List.replicate (max + 1) WifiEvent.staDisconnected)).2 = 1 ∧
    countConnects (wifiRun max initWifi (List.replicate (max + 1) WifiEvent.staDisconnected)).2 = max := by
  have run1 : wifiRun max initWifi (List.replicate N WifiEvent.staDisconnected) =
      (⟨N, false, false⟩, List.replicate N WifiAction.connectAttempt) := by
    have h0 : (0 : Nat) + N ≤ max := by omega
    simpa [initWifi] using wifiRun_disc_le max 0 N false false h0
  have runMax : wifiRun max initWifi (List.replicate max WifiEvent.staDisconnected) =
      (⟨max, false, false⟩, List.replicate max WifiAction.connectAttempt) := by
    have h0 : (0 : Nat) + max ≤ max := by omega
    simpa [initWifi] using wifiRun_disc_le max 0 max false false h0
  have run2 : wifiRun max initWifi (List.replicate (max + 1) WifiEvent.staDisconnected) =
      (⟨max, false, true⟩,
       List.replicate max WifiAction.connectAttempt ++ [WifiAction.signalFail]) := by
    rw [List.replicate_succ', wifiRun_append, runMax]
    simp [wifiRun, wifi_event_handler]
  refine ⟨?_, ?_, ?_, ?_, ?_⟩
  · rw [run1]
  · rw [run1]
    simp [countConnects, countP_replicate, isConnectAttempt]
  · rw [run1]
    simp [countFails, countP_replicate, isSignalFail]
  · rw [run2]
    simp [countFails, List.countP_append, countP_replicate, List.countP_cons,
      isSignalFail]
  · rw [run2]
    simp [countConnects, List.countP_append, countP_replicate, List.countP_cons,
      isConnectAttempt]

/-- Witness for C1 at max = 3, N = 2. -/
theorem C1_wifi_bounded_retry_witness :
    (wifiRun 3 initWifi (List.replicate 2 WifiEvent.staDisconnected)).1.retryNum = 2 ∧
    countConnects (wifiRun 3 initWifi (List.replicate 2 WifiEvent.staDisconnected)).2 = 2 ∧
    countFails (wifiRun 3 initWifi (List.replicate 2 WifiEvent.staDisconnected)).2 = 0 ∧
    countFails (wifiRun 3 initWifi (List.replicate 4 WifiEvent.staDisconnected)).2 = 1 ∧
    countConnects (wifiRun 3 initWifi (List.replicate 4 WifiEvent.staDisconnected)).2 = 3 :=
  C1_wifi_bounded_retry 3 2 (by decide)

/-- C2 counterexample: with max = 1, the second consecutive disconnect event
does not increment the retry counter (it stays at 1 rather than reaching 2),
yet exactly one Fail signal has fired even though the counter never became
strictly greater than max: the claim that every failure increments the counter
by 1 and that Fail fires the instant the counter exceeds max is false. -/
theorem C2_cex :
    (wifiRun 1 initWifi [WifiEvent.staDisconnected, WifiEvent.staDisconnected]).1.retryNum = 1 ∧
    ¬ (wifiRun 1 initWifi [WifiEvent.staDisconnected, WifiEvent.staDisconnected]).1.retryNum = 2 ∧
    countFails (wifiRun 1 initWifi [WifiEvent.staDisconnected, WifiEvent.staDisconnected]).2 = 1 := by
  decide

/-- C2 amended: a disconnect event increments the retry counter by 1 only
while the counter is below max, and leaves it unchanged once it has reached
max; the Fail signal fires exactly on those disconnect events that arrive with
the counter already at max.  Concretely: after n consecutive disconnects from
the initial state the counter equals min n max and exactly n - min n max Fail
signals have fired, and on every event trace the counter never exceeds max. -/
theorem C2_retry_increment_amended (max n : Nat) (es : List WifiEvent) :
    (wifiRun max initWifi (List.replicate n WifiEvent.staDisconnected)).1.retryNum = min n max ∧
    countFails (wifiRun max initWifi (List.replicate n WifiEvent.staDisconnected)).2 = n - min n max ∧
    (wifiRun max initWifi es).1.retryNum ≤ max := by
  have hle : (wifiRun max initWifi es).1.retryNum ≤ max := by
    apply wifiRun_retry_le
    simp [initWifi]
  rcases le_or_lt n max with hn | hn
  · have h0 : (0 : Nat) + n ≤ max := by omega
    have run1 : wifiRun max initWifi (List.replicate n WifiEvent.staDisconnected) =
        (⟨n, false, false⟩, List.replicate n WifiAction.connectAttempt) := by
      simpa [initWifi] using wifiRun_disc_le max 0 n false false h0
    have hc1 : countFails (List.replicate n WifiAction.connectAttempt) = 0 := by
      simp [countFails, countP_replicate, isSignalFail]
    refine ⟨?_, ?_, hle⟩
    · rw [run1]
      show n = min n max
      omega
    · rw [run1]
      show countFails (List.replicate n WifiAction.connectAttempt) = n - min n max
      omega
  · have hsplit : List.replicate n WifiEvent.staDisconnected =
        List.replicate max WifiEvent.staDisconnected ++
          List.replicate (n - max) WifiEvent.staDisconnected := by
      rw [← List.replicate_add]
      congr 1
      omega
    have h0 : (0 : Nat) + max ≤ max := by omega
    have runMax : wifiRun max initWifi (List.replicate max WifiEvent.staDisconnected) =
        (⟨max, false, false⟩, List.replicate max WifiAction.connectAttempt) := by
      simpa [initWifi] using wifiRun_disc_le max 0 max false false h0
    have runRest := wifiRun_disc_ge max max (n - max) false false (le_refl max)
    have hm0 : ¬ (n - max = 0) := by omega
    have runN : wifiRun max initWifi (List.replicate n WifiEvent.staDisconnected) =
        (⟨max, false, true⟩,
         List.replicate max WifiAction.connectAttempt ++
           List.replicate (n - max) WifiAction.signalFail) := by
      rw [hsplit, wifiRun_append, runMax]
      simp [runRest, hm0]
    have hc1 : countFails (List.replicate max WifiAction.connectAttempt ++
        List.replicate (n - max) WifiAction.signalFail) = n - max := by
      simp [countFails, List.countP_append, countP_replicate, isSignalFail,
        isConnectAttempt]
    refine ⟨?_, ?_, hle⟩
    · rw [runN]
      show max = min n max
      omega
    · rw [runN]
      show countFails (List.replicate max WifiAction.connectAttempt ++
        List.replicate (n - max) WifiAction.signalFail) = n - min n max
      omega

/-- C4: a successful connect (got-IP / StationAddressAssigned) event resets
the retry counter to 0 at whatever value it had: after any event trace
followed by a got-IP event, the counter is 0. -/
theorem C4_success_resets_counter (max : Nat) (s : WifiState) (es : List WifiEvent) :
    (wifiRun max s (es ++ [WifiEvent.staGotIp])).1.retryNum = 0 := by
  rw [wifiRun_append]
  simp [wifiRun, wifi_event_handler]

/-- C5: the supervisor's blocking call returns only at the first terminal
signal (the model returns exactly when an event first sets a bit); when the
terminal outcome is Connected it has, before returning, performed
led_control_set(1) and web_server_start exactly once each, and when the
outcome is Fail it has performed neither. -/
theorem C5_supervisor_side_effects (max : Nat) (es : List WifiEvent)
    (o : WifiOutcome) (acts : List WifiAction)
    (h : wifi_manager_start max initWifi es = some (o, acts)) :
    (o = WifiOutcome.connected → countLedOn acts = 1 ∧ countServerStart acts = 1) ∧
    (o = WifiOutcome.fail → countLedOn acts = 0 ∧ countServerStart acts = 0) :=
  wifi_manager_start_counts max es initWifi o acts rfl rfl h

/-- Witness for C5: with max = 3, the trace disconnect, disconnect, got-IP
ends with the Connected outcome after exactly one LED-on and one
server-start action. -/
theorem C5_supervisor_side_effects_witness :
    (WifiOutcome.connected = WifiOutcome.connected →
      countLedOn [WifiAction.connectAttempt, WifiAction.connectAttempt,
        WifiAction.ledSet true, WifiAction.serverStart, WifiAction.signalConnected] = 1 ∧
      countServerStart [WifiAction.connectAttempt, WifiAction.connectAttempt,
        WifiAction.ledSet true, WifiAction.serverStart, WifiAction.signalConnected] = 1) ∧
    (WifiOutcome.connected = WifiOutcome.fail →
      countLedOn [WifiAction.connectAttempt, WifiAction.connectAttempt,
        WifiAction.ledSet true, WifiAction.serverStart, WifiAction.signalConnected] = 0 ∧
      countServerStart [WifiAction.connectAttempt, WifiAction.connectAttempt,
        WifiAction.ledSet true, WifiAction.serverStart, WifiAction.signalConnected] = 0) :=
  C5_supervisor_side_effects 3
    [WifiEvent.staDisconnected, WifiEvent.staDisconnected, WifiEvent.staGotIp]
    WifiOutcome.connected
    [WifiAction.connectAttempt, WifiAction.connectAttempt,
      WifiAction.ledSet true, WifiAction.serverStart, WifiAction.signalConnected]
    (by decide)

/- ==================== BLE common constants (NimBLE) ==================== -/

/- BLE_HS_CONN_HANDLE_NONE, the 0xFFFF sentinel for no connection. -/
def BLE_HS_CONN_HANDLE_NONE : Nat := 65535

/- NimBLE host error codes used by the embedded GAP model. -/
def BLE_HS_EALREADY : Int := 2

def BLE_HS_EBUSY : Int := 15

/- ==================== BLE peripheral role (components/BLE/BLE.c) ==================== -/

/- GAP events the peripheral handler switches on: BLE_GAP_EVENT_CONNECT
   (with its status and conn_handle), BLE_GAP_EVENT_DISCONNECT (with the
   reason), BLE_GAP_EVENT_CONN_UPDATE, BLE_GAP_EVENT_ADV_COMPLETE, and the
   default case for any other event code. -/
inductive PeriGapEvent : Type
  | connectEv (status : Int) (handle : Nat)
  | disconnectEv (reason : Nat)
  | connUpdate
  | advComplete
  | unknown (t : Nat)
  deriving DecidableEq, Repr

/- Observable action: a call to start_advertising (one ble_gap_adv_start
   issue per call). -/
inductive PeriAction : Type
  | advRestart
  deriving DecidableEq, Repr

/- The peripheral state: s_conn_handle and s_is_connected. -/
structure PeriState : Type where
  conn_handle : Nat
  is_connected : Bool
  deriving DecidableEq, Repr

/- Initial peripheral state: s_conn_handle = BLE_HS_CONN_HANDLE_NONE,
   s_is_connected = false. -/
def initPeri : PeriState := ⟨BLE_HS_CONN_HANDLE_NONE, false⟩

/- ble_peripheral_gap_event, components/BLE/BLE.c lines 136-195.
   CONNECT with status 0: store the handle, set connected.
   CONNECT with nonzero status: clear connected, restart advertising.
   DISCONNECT: clear handle and connected, restart advertising.
   CONN_UPDATE: log only.  ADV_COMPLETE: restart advertising if not
   connected.  Anything else: log only. -/
def ble_peripheral_gap_event (s : PeriState) (e : PeriGapEvent) :
    PeriState × List PeriAction :=
  match e with
  | PeriGapEvent.connectEv status handle =>
      if status = 0 then
        ({ conn_handle := handle, is_connected := true }, [])
      else
        ({ s with is_connected := false }, [PeriAction.advRestart])
  | PeriGapEvent.disconnectEv _ =>
      ({ conn_handle := BLE_HS_CONN_HANDLE_NONE, is_connected := false },
       [PeriAction.advRestart])
  | PeriGapEvent.connUpdate => (s, [])
  | PeriGapEvent.advComplete =>
      if s.is_connected then (s, []) else (s, [PeriAction.advRestart])
  | PeriGapEvent.unknown _ => (s, [])

/- ble_peripheral_on_reset, components/BLE/BLE.c lines 234-239. -/
def ble_peripheral_on_reset (s : PeriState) : PeriState :=
  { s with is_connected := false, conn_handle := BLE_HS_CONN_HANDLE_NONE }

def countAdvRestart (l : List PeriAction) : Nat :=
  l.countP fun a => match a with | PeriAction.advRestart => true

/- ==================== BLE peripheral claim theorems ==================== -/

/-- C6: for the BLE peripheral role, every Disconnect event — in any state,
connected or not — and every AdvertiseComplete event arriving while not
connected, produces exactly one advertising-restart action in the same
processing step: never zero, never two. -/
theorem C6_peripheral_restart (s s2 : PeriState) (r : Nat)
    (h : s2.is_connected = false) :
    countAdvRestart (ble_peripheral_gap_event s (PeriGapEvent.disconnectEv r)).2 = 1 ∧
    countAdvRestart (ble_peripheral_gap_event s2 PeriGapEvent.advComplete).2 = 1 := by
  constructor
  · simp [ble_peripheral_gap_event, countAdvRestart]
  · simp [ble_peripheral_gap_event, h, countAdvRestart]

/-- Witness for C6: a disconnect with reason 0x13 arriving while connected
with handle 1, and an advertise-complete in the initial (not connected)
state, each trigger exactly one advertising restart. -/
theorem C6_peripheral_restart_witness :
    countAdvRestart (ble_peripheral_gap_event ⟨1, true⟩ (PeriGapEvent.disconnectEv 19)).2 = 1 ∧
    countAdvRestart (ble_peripheral_gap_event initPeri PeriGapEvent.advComplete).2 = 1 :=
  C6_peripheral_restart ⟨1, true⟩ initPeri 19 (by decide)

/- ==================== BLE central role (station/components/BLE/BLE.c) ==================== -/

/- The central state: s_conn_handle and s_is_connected from the C file,
   together with the state of the NimBLE GAP master procedures the code
   drives.  The connecting and discovering flags embed the documented
   NimBLE GAP semantics for ble_gap_connect, ble_gap_disc and
   ble_gap_disc_cancel: the host tracks whether a master connect procedure
   or a discovery procedure is outstanding, and rejects a new one while one
   is in flight.  They are modelled here because the handler's behaviour
   visible to the claims depends on those return codes. -/
structure CentState : Type where
  conn_handle : Nat
  is_connected : Bool
  connecting : Bool
  discovering : Bool
  deriving DecidableEq, Repr

/- Initial central state: no handle, not connected, no GAP procedure. -/
def initCent : CentState := ⟨BLE_HS_CONN_HANDLE_NONE, false, false, false⟩

/- ble_gap_disc_cancel (NimBLE): cancels an active discovery, returns
   BLE_HS_EALREADY when none is active (tolerated by the callers). -/
def ble_gap_disc_cancel (s : CentState) : CentState × Int :=
  if s.discovering then ({ s with discovering := false }, 0)
  else (s, BLE_HS_EALREADY)

/- ble_gap_connect (NimBLE): starts a master connect procedure; fails with
   BLE_HS_EALREADY while a connect is already outstanding and with
   BLE_HS_EBUSY while discovery is in progress. -/
def ble_gap_connect (s : CentState) : CentState × Int :=
  if s.connecting then (s, BLE_HS_EALREADY)
  else if s.discovering then (s, BLE_HS_EBUSY)
  else ({ s with connecting := true }, 0)

/- ble_gap_disc (NimBLE): starts discovery; fails with BLE_HS_EALREADY
   while discovery is already in progress and with BLE_HS_EBUSY while a
   connect procedure is outstanding. -/
def ble_gap_disc (s : CentState) : CentState × Int :=
  if s.discovering then (s, BLE_HS_EALREADY)
  else if s.connecting then (s, BLE_HS_EBUSY)
  else ({ s with discovering := true }, 0)

/- Observable central actions: a connect procedure actually initiated by
   the stack (ble_gap_connect returning 0) and a scan actually started
   (ble_gap_disc returning 0). -/
inductive CentAction : Type
  | connectInitiated
  | scanStarted
  deriving DecidableEq, Repr

/- connect_to_device, station/components/BLE/BLE.c lines 104-137: cancel
   discovery (tolerating BLE_HS_EALREADY), then call ble_gap_connect; a
   nonzero rc is logged and returned, so no connect procedure begins. -/
def connect_to_device (s : CentState) : CentState × List CentAction :=
  let c := (ble_gap_disc_cancel s).1
  let r := ble_gap_connect c
  if r.2 = 0 then (r.1, [CentAction.connectInitiated]) else (r.1, [])

/- ble_central_start_scan, station/components/BLE/BLE.c lines 300-318:
   call ble_gap_disc; a nonzero rc is logged and returned. -/
def ble_central_start_scan (s : CentState) : CentState × List CentAction :=
  let r := ble_gap_disc s
  if r.2 = 0 then (r.1, [CentAction.scanStarted]) else (r.1, [])

/- GAP events the central handler switches on: BLE_GAP_EVENT_DISC (with
   the connectable-advertisement check on event_type folded into a flag),
   BLE_GAP_EVENT_CONNECT, BLE_GAP_EVENT_DISCONNECT,
   BLE_GAP_EVENT_DISC_COMPLETE, BLE_GAP_EVENT_CONN_UPDATE and the default
   case. -/
inductive CentGapEvent : Type
  | discEv (connectable : Bool)
  | connectEv (status : Int) (handle : Nat)
  | disconnectEv (reason : Nat)
  | discComplete (reason : Int)
  | connUpdate
  | unknown (t : Nat)
  deriving DecidableEq, Repr

/- ble_central_gap_event, station/components/BLE/BLE.c lines 139-228.
   DISC: if the advertisement is connectable and s_is_connected is false,
   call connect_to_device.
   CONNECT status 0: store handle, set connected (the outstanding connect
   procedure completes).  CONNECT nonzero status: clear connected, restart
   scanning (the procedure also completes).
   DISCONNECT: clear handle and connected, restart scanning.
   DISC_COMPLETE: the discovery procedure has ended; restart scanning when
   not connected.  CONN_UPDATE and anything else: log only. -/
def ble_central_gap_event (s : CentState) (e : CentGapEvent) :
    CentState × List CentAction :=
  match e with
  | CentGapEvent.discEv connectable =>
      if connectable && !s.is_connected then connect_to_device s
      else (s, [])
  | CentGapEvent.connectEv status handle =>
      if status = 0 then
        ({ s with conn_handle := handle, is_connected := true, connecting := false }, [])
      else
        ble_central_start_scan { s with is_connected := false, connecting := false }
  | CentGapEvent.disconnectEv _ =>
      ble_central_start_scan
        { s with conn_handle := BLE_HS_CONN_HANDLE_NONE, is_connected := false }
  | CentGapEvent.discComplete _ =>
      let s1 := { s with discovering := false }
      if !s1.is_connected then ble_central_start_scan s1 else (s1, [])
  | CentGapEvent.connUpdate => (s, [])
  | CentGapEvent.unknown _ => (s, [])

/- ble_central_on_reset, station/components/BLE/BLE.c lines 263-268. -/
def ble_central_on_reset (s : CentState) : CentState :=
  { s with is_connected := false, conn_handle := BLE_HS_CONN_HANDLE_NONE }

/- ==================== BLE central claim theorems ==================== -/

/-- C3: for the BLE central role, while a connect attempt is in flight (a
connect procedure outstanding, no ConnectOutcome yet, so s_is_connected is
still false), any further DiscoveryHit event is ignored: the state still has
the connect in flight and no connection established, and no second connect
procedure is initiated (ble_gap_connect rejects it with BLE_HS_EALREADY, so
connect_to_device returns without starting anything). -/
theorem C3_central_hit_ignored_while_connecting (s : CentState) (c : Bool)
    (h1 : s.connecting = true) (h2 : s.is_connected = false) :
    (ble_central_gap_event s (CentGapEvent.discEv c)).1.connecting = true ∧
    (ble_central_gap_event s (CentGapEvent.discEv c)).1.is_connected = false ∧
    (ble_central_gap_event s (CentGapEvent.discEv c)).2 = [] := by
  cases c with
  | false => simp [ble_central_gap_event, h1, h2]
  | true =>
      simp only [ble_central_gap_event, h2, Bool.not_false, Bool.and_true,
        Bool.true_and, if_true, connect_to_device, ble_gap_disc_cancel,
        ble_gap_connect]
      by_cases hd : s.discovering <;>
        simp [hd, h1, h2, BLE_HS_EALREADY]

/-- Witness for C3: a central state with a connect procedure outstanding
ignores a connectable discovery hit. -/
theorem C3_central_hit_ignored_while_connecting_witness :
    (ble_central_gap_event ⟨BLE_HS_CONN_HANDLE_NONE, false, true, false⟩
      (CentGapEvent.discEv true)).1.connecting = true ∧
    (ble_central_gap_event ⟨BLE_HS_CONN_HANDLE_NONE, false, true, false⟩
      (CentGapEvent.discEv true)).1.is_connected = false ∧
    (ble_central_gap_event ⟨BLE_HS_CONN_HANDLE_NONE, false, true, false⟩
      (CentGapEvent.discEv true)).2 = [] :=
  C3_central_hit_ignored_while_connecting
    ⟨BLE_HS_CONN_HANDLE_NONE, false, true, false⟩ true rfl rfl

/- ==================== C9: connected-flag / handle invariant ==================== -/

/- The invariant of claim C9: the connected flag is true only if the stored
   handle is not the BLE_HS_CONN_HANDLE_NONE sentinel. -/
abbrev periInv (s : PeriState) : Prop :=
  s.is_connected = true → s.conn_handle ≠ BLE_HS_CONN_HANDLE_NONE

abbrev centInv (t : CentState) : Prop :=
  t.is_connected = true → t.conn_handle ≠ BLE_HS_CONN_HANDLE_NONE

/- Well-formed GAP events: a successful connect outcome carries a real
   connection handle, never the host's own 0xFFFF "none" sentinel. -/
abbrev PeriGapEvent.wf : PeriGapEvent → Prop
  | PeriGapEvent.connectEv status handle =>
      status = 0 → handle ≠ BLE_HS_CONN_HANDLE_NONE
  | _ => True

abbrev CentGapEvent.wf : CentGapEvent → Prop
  | CentGapEvent.connectEv status handle =>
      status = 0 → handle ≠ BLE_HS_CONN_HANDLE_NONE
  | _ => True

theorem connect_to_device_conn_unchanged (s : CentState) :
    (connect_to_device s).1.is_connected = s.is_connected ∧
    (connect_to_device s).1.conn_handle = s.conn_handle := by
  simp only [connect_to_device, ble_gap_disc_cancel, ble_gap_connect]
  by_cases hd : s.discovering <;> by_cases hc : s.connecting <;>
    simp [hd, hc, BLE_HS_EALREADY, BLE_HS_EBUSY]

theorem ble_central_start_scan_conn_unchanged (s : CentState) :
    (ble_central_start_scan s).1.is_connected = s.is_connected ∧
    (ble_central_start_scan s).1.conn_handle = s.conn_handle := by
  simp only [ble_central_start_scan, ble_gap_disc]
  by_cases hd : s.discovering <;> by_cases hc : s.connecting <;>
    simp [hd, hc, BLE_HS_EALREADY, BLE_HS_EBUSY]

theorem peri_step_preserves_inv (s : PeriState) (e : PeriGapEvent)
    (hs : periInv s) (he : PeriGapEvent.wf e) :
    periInv (ble_peripheral_gap_event s e).1 := by
  cases e with
  | connectEv status handle =>
      by_cases h0 : status = 0
      · have hh := he h0
        simp [ble_peripheral_gap_event, h0, hh]
      · simp [ble_peripheral_gap_event, h0]
  | disconnectEv r => simp [ble_peripheral_gap_event]
  | connUpdate => exact hs
  | advComplete =>
      cases hb : s.is_connected with
      | false => simp [ble_peripheral_gap_event, hb]
      | true =>
          have := hs hb
          simp [ble_peripheral_gap_event, hb, this]
  | unknown t => exact hs

theorem cent_step_preserves_inv (t : CentState) (f : CentGapEvent)
    (ht : centInv t) (hf : CentGapEvent.wf f) :
    centInv (ble_central_gap_event t f).1 := by
  cases f with
  | discEv c =>
      simp only [ble_central_gap_event]
      by_cases hc : (c && !t.is_connected) = true
      · rw [if_pos hc]
        have hu := connect_to_device_conn_unchanged t
        intro hx
        rw [hu.1] at hx
        rw [hu.2]
        exact ht hx
      · rw [if_neg hc]
        exact ht
  | connectEv status handle =>
      simp only [ble_central_gap_event]
      by_cases h0 : status = 0
      · rw [if_pos h0]
        intro hx
        exact hf h0
      · rw [if_neg h0]
        have hu := ble_central_start_scan_conn_unchanged
          { t with is_connected := false, connecting := false }
        intro hx
        rw [hu.1] at hx
        simp at hx
  | disconnectEv r =>
      simp only [ble_central_gap_event]
      have hu := ble_central_start_scan_conn_unchanged
        { t with conn_handle := BLE_HS_CONN_HANDLE_NONE, is_connected := false }
      intro hx
      rw [hu.1] at hx
      simp at hx
  | discComplete r =>
      simp only [ble_central_gap_event]
      cases hb : t.is_connected with
      | false =>
          have hu := ble_central_start_scan_conn_unchanged
            ⟨t.conn_handle, false, t.connecting, false⟩
          simp only [hb, Bool.not_false, if_true]
          intro hx
          rw [hu.1] at hx
          simp at hx
      | true =>
          simp only [hb, Bool.not_true, Bool.false_eq_true, if_false]
          intro hx
          exact ht hb
  | connUpdate => exact ht
  | unknown u => exact ht

/-- C9: in both BLE roles the invariant "the connected flag is true only if
the stored connection handle is not the BLE_HS_CONN_HANDLE_NONE sentinel"
holds in the initial state, is preserved by every GAP event whose successful
connect outcome carries a real (non-sentinel) handle, and is preserved by
the host-reset callback. -/
theorem C9_connected_handle_invariant (s : PeriState) (t : CentState)
    (e : PeriGapEvent) (f : CentGapEvent)
    (hs : periInv s) (ht : centInv t)
    (he : PeriGapEvent.wf e) (hf : CentGapEvent.wf f) :
    periInv initPeri ∧ centInv initCent ∧
    periInv (ble_peripheral_gap_event s e).1 ∧
    periInv (ble_peripheral_on_reset s) ∧
    centInv (ble_central_gap_event t f).1 ∧
    centInv (ble_central_on_reset t) := by
  refine ⟨?_, ?_, peri_step_preserves_inv s e hs he, ?_,
    cent_step_preserves_inv t f ht hf, ?_⟩
  · intro h
    simp [initPeri] at h
  · intro h
    simp [initCent] at h
  · intro h
    simp [ble_peripheral_on_reset] at h
  · intro h
    simp [ble_central_on_reset] at h

/-- Witness for C9: the invariant facts instantiated at the initial states,
a successful peripheral connect with handle 1, and a connectable central
discovery hit. -/
theorem C9_connected_handle_invariant_witness :
    periInv initPeri ∧ centInv initCent ∧
    periInv (ble_peripheral_gap_event initPeri (PeriGapEvent.connectEv 0 1)).1 ∧
    periInv (ble_peripheral_on_reset initPeri) ∧
    centInv (ble_central_gap_event initCent (CentGapEvent.discEv true)).1 ∧
    centInv (ble_central_on_reset initCent) :=
  C9_connected_handle_invariant initPeri initCent
    (PeriGapEvent.connectEv 0 1) (CentGapEvent.discEv true)
    (by decide) (by decide) (by decide) (by decide)

/- ==================== Address codec (addr_to_string) ==================== -/

/- One uppercase hexadecimal digit, as produced by printf %X. -/
def hexDigit (n : Nat) : Char :=
  if n < 10 then Char.ofNat (48 + n) else Char.ofNat (55 + n)

/- The %02X rendering of one byte (values 0..255 give two digits). -/
def byteHex (b : Nat) : String :=
  String.mk [hexDigit (b / 16), hexDigit (b % 16)]

/- A 6-byte BLE address in device-native (little-endian) order:
   b0 is addr[0] (least significant), b5 is addr[5]. -/
structure BleAddr : Type where
  b0 : Nat
  b1 : Nat
  b2 : Nat
  b3 : Nat
  b4 : Nat
  b5 : Nat
  deriving DecidableEq, Repr

namespace Central

/- addr_to_string, station/components/BLE/BLE.c lines 38-43:
   snprintf "%02X:%02X:%02X:%02X:%02X:%02X" with addr[5] .. addr[0]. -/
def addr_to_string (a : BleAddr) : String :=
  byteHex a.b5 ++ ":" ++ byteHex a.b4 ++ ":" ++ byteHex a.b3 ++ ":" ++
    byteHex a.b2 ++ ":" ++ byteHex a.b1 ++ ":" ++ byteHex a.b0

end Central

namespace Peripheral

/- addr_to_string, components/BLE/BLE.c lines 43-48: identical rendering in
   the peripheral role's file. -/
def addr_to_string (a : BleAddr) : String :=
  byteHex a.b5 ++ ":" ++ byteHex a.b4 ++ ":" ++ byteHex a.b3 ++ ":" ++
    byteHex a.b2 ++ ":" ++ byteHex a.b1 ++ ":" ++ byteHex a.b0

end Peripheral

/- The address bytes in device-native order. -/
def addrBytes (a : BleAddr) : List Nat := [a.b0, a.b1, a.b2, a.b3, a.b4, a.b5]

/- Spec-side display form, written from the spec's words: the canonical
   colon-separated uppercase-hexadecimal form with the little-endian byte
   sequence reversed (most significant byte first). -/
def specAddrDisplay (a : BleAddr) : String :=
  String.intercalate ":" ((addrBytes a).reverse.map byteHex)

/-- C7: the address codec renders a 6-byte device identifier as
colon-separated uppercase hexadecimal with the bytes in reversed
(most-significant-first) order: bytes 01..06 in native order display as
"06:05:04:03:02:01" (and the spec's other example 11..66 as
"66:55:44:33:22:11"); both role implementations compute the same function,
and both agree with the display form written from the spec's words. -/
theorem C7_addr_codec (a : BleAddr) :
    Central.addr_to_string ⟨1, 2, 3, 4, 5, 6⟩ = "06:05:04:03:02:01" ∧
    Central.addr_to_string ⟨17, 34, 51, 68, 85, 102⟩ = "66:55:44:33:22:11" ∧
    Central.addr_to_string a = Peripheral.addr_to_string a ∧
    Central.addr_to_string a = specAddrDisplay a :=
  ⟨by decide, by decide, rfl, rfl⟩

/- ==================== HTTP server start guard (WEB_Server.c) ==================== -/

/- The static handle in web_server_start plus a count of how many times the
   underlying httpd_start operation has succeeded. -/
structure WebState : Type where
  server : Option Nat
  started_total : Nat
  deriving DecidableEq, Repr

def initWeb : WebState := ⟨none, 0⟩

/- web_server_start, WEB_Server.c lines 164-216: when the static handle is
   already non-NULL the call only logs "HTTP server already running" and
   returns; otherwise httpd_start is attempted - on failure the handle stays
   NULL and the call returns after logging, on success the handle is stored
   and the URI handlers registered.  ok models whether httpd_start succeeds
   this time. -/
def web_server_start (ok : Bool) (s : WebState) : WebState :=
  match s.server with
  | some _ => s
  | none =>
      if ok then { server := some 1, started_total := s.started_total + 1 }
      else s

/- A sequence of web_server_start invocations with the given httpd_start
   outcomes. -/
def runWeb : WebState → List Bool → WebState
  | s, [] => s
  | s, ok :: oks => runWeb (web_server_start ok s) oks

theorem runWeb_started_le_one (oks : List Bool) :
    ∀ s : WebState, (s.server = none → s.started_total = 0) →
      s.started_total ≤ 1 → (runWeb s oks).started_total ≤ 1 := by
  induction oks with
  | nil => intro s h1 h2; exact h2
  | cons ok oks ih =>
      intro s h1 h2
      simp only [runWeb]
      cases hs : s.server with
      | some v =>
          have hstep : web_server_start ok s = s := by
            simp [web_server_start, hs]
          rw [hstep]
          exact ih s h1 h2
      | none =>
          have h0 := h1 hs
          cases ok with
          | false =>
              have hstep : web_server_start false s = s := by
                simp [web_server_start, hs]
              rw [hstep]
              exact ih s h1 h2
          | true =>
              have hstep : web_server_start true s =
                  ⟨some 1, s.started_total + 1⟩ := by
                simp [web_server_start, hs]
              rw [hstep]
              apply ih
              · intro hcon
                simp at hcon
              · simp [h0]

/-- C8: web_server_start is idempotent: a call made while the static server
handle is already set is a no-op (it only logs), and consequently over any
sequence of invocations, from the initial not-running state, the underlying
HTTP server is successfully started at most once. -/
theorem C8_web_server_start_idempotent (oks : List Bool) (ok : Bool)
    (s : WebState) (v : Nat) (h : s.server = some v) :
    web_server_start ok s = s ∧
    (runWeb initWeb oks).started_total ≤ 1 := by
  constructor
  · simp [web_server_start, h]
  · exact runWeb_started_le_one oks initWeb (fun _ => rfl) (by decide)

/-- Witness for C8: a second start call while running is a no-op, and three
invocations (two of which could succeed) start the server only once. -/
theorem C8_web_server_start_idempotent_witness :
    web_server_start true ⟨some 1, 1⟩ = ⟨some 1, 1⟩ ∧
    (runWeb initWeb [true, true, false]).started_total ≤ 1 :=
  C8_web_server_start_idempotent [true, true, false] true ⟨some 1, 1⟩ 1 rfl

/- ==================== NVS string storage (Storage_Manager.c) ==================== -/

/- Outcomes of the three NVS operations storage_manager_save_string
   performs: nvs_open, nvs_set_str, nvs_commit (true = ESP_OK). -/
structure NvsEnv : Type where
  open_ok : Bool
  set_ok : Bool
  commit_ok : Bool
  deriving DecidableEq, Repr

def STRING_MAX_LEN : Nat := 64

/- storage_manager_save_string, Storage_Manager.c lines 74-105.  cached is
   the contents of the RAM mirror s_stored_string before the call; the
   result is its contents after.  If nvs_open fails, the function returns
   at once; if nvs_set_str fails it closes and returns; if nvs_commit fails
   it only logs; only when the commit succeeded does
   strncpy(s_stored_string, value, STRING_MAX_LEN - 1) with a forced NUL at
   index STRING_MAX_LEN - 1 run, leaving the first min(len value, 63)
   characters of value in the mirror. -/
def storage_manager_save_string (env : NvsEnv) (value cached : List Char) :
    List Char :=
  if env.open_ok = false then cached
  else if env.set_ok = false then cached
  else if env.commit_ok = false then cached
  else value.take (STRING_MAX_LEN - 1)

/- storage_manager_get_string, Storage_Manager.c lines 69-72: returns the
   RAM mirror. -/
def storage_manager_get_string (cached : List Char) : List Char := cached

/-- C10: storage_manager_save_string is atomic with respect to the cached
string: if the open, set or commit step fails, the string read back by
storage_manager_get_string is unchanged; only when the commit succeeds is
the mirror replaced by value truncated to at most 63 characters (and
NUL-terminated, modelled by the list holding only the retained
characters). -/
theorem C10_storage_save_atomic (env : NvsEnv) (value cached : List Char) :
    ((env.open_ok = false ∨ env.set_ok = false ∨ env.commit_ok = false) →
      storage_manager_get_string
        (storage_manager_save_string env value cached) = cached) ∧
    (env.open_ok = true → env.set_ok = true → env.commit_ok = true →
      storage_manager_save_string env value cached = value.take 63 ∧
      (storage_manager_save_string env value cached).length ≤ 63) := by
  constructor
  · intro h
    rcases h with h | h | h <;>
      simp [storage_manager_save_string, storage_manager_get_string, h]
  · intro h1 h2 h3
    refine ⟨?_, ?_⟩
    · simp [storage_manager_save_string, h1, h2, h3, STRING_MAX_LEN]
    · simp [storage_manager_save_string, h1, h2, h3, STRING_MAX_LEN,
        List.length_take]

/-- Witness for C10: a failing open leaves the cached string unchanged, and
a fully successful save replaces it. -/
theorem C10_storage_save_atomic_witness :
    storage_manager_get_string
      (storage_manager_save_string ⟨false, true, true⟩
        [Char.ofNat 97] [Char.ofNat 98]) = [Char.ofNat 98] ∧
    storage_manager_save_string ⟨true, true, true⟩
      [Char.ofNat 97] [Char.ofNat 98] = [Char.ofNat 97] := by
  constructor
  · exact (C10_storage_save_atomic ⟨false, true, true⟩
      [Char.ofNat 97] [Char.ofNat 98]).1 (Or.inl rfl)
  · exact ((C10_storage_save_atomic ⟨true, true, true⟩
      [Char.ofNat 97] [Char.ofNat 98]).2 rfl rfl rfl).1.trans rfl
